import Mathlib

/-!
# FinGuard — verification of the staged fraud-screening pipeline

Shallow embedding of the FinGuard sources:

* `FraudDetectionEngine.analyze_text` (mcp_gateway.py) — the rule-based
  Scoring Engine;
* `FraudAgent` / `RiskAgent` / `ComplianceAgent` / `MemoryUpdateAgent` and
  `FinGuardOrchestrator.process_input` / `_determine_final_decision`
  (armor_workflow.py) — the staged escalation pipeline;
* the adapter result shape of `MCPGatewayAdapter.invoke`
  (mcp_gateway_adapter.py), which is what `client1.invoke` is rebound to in
  initialisation_client.py: a `{success, result, status, error}` dictionary
  that is returned, never raised.

Numeric values that are Python floats in the source (`0.3`, `0.2`, `0.25`,
`0.4`, thresholds) are modelled as exact rationals `ℚ`; all scores reachable
by the engine are integer multiples of 1/20, where rational and
double-precision evaluation of the source's comparisons agree.

Python dictionaries produced by the agents are modelled as structures whose
fields are `Option`-valued exactly when the corresponding key may be absent
from the dictionary; `.get(k, d)` becomes `Option.getD`.

Effects that depend on the outside world are threaded explicitly:

* each gateway invocation's reply is a `InvokeResult` drawn from a
  `PipelineEnv` (one slot per invocation the pipeline can make);
* an exception raised by the capability client (`client1.capture_plan` /
  `client1.get_intent_token`) inside a stage body is modelled by a per-stage
  boolean flag; the stage then takes exactly its `except` branch
  (log an error into the context, return the synthetic report);
* the interactive yes/no answer of `ask_user_confirmation` is a boolean in
  the environment;
* session-id generation (`_generate_session_id`, time-derived in the source)
  is modelled by a counter threaded through `process_input`, so that "a
  session id was generated" is observable as the counter increasing.
-/

namespace FinGuard

/-! ## Scoring Engine (mcp_gateway.py, `FraudDetectionEngine`) -/

/-- `FRAUD_KEYWORDS["high_risk"]`. -/
def highRiskKeywords : List String :=
  ["offshore", "crypto", "bitcoin", "ethereum", "darknet",
   "untraceable", "laundering", "tax evasion", "sanctions",
   "immediately", "urgent", "rush", "today", "asap"]

/-- `FRAUD_KEYWORDS["medium_risk"]`. -/
def mediumRiskKeywords : List String :=
  ["verify account", "confirm identity", "update payment",
   "click link", "verify credentials", "supply code"]

/-- `FRAUD_KEYWORDS["social_engineering"]`. -/
def socialEngineeringKeywords : List String :=
  ["prize winner", "congratulations", "claim reward",
   "act now", "limited time", "exclusive offer"]

/-- `CRYPTO_KEYWORDS`. -/
def cryptoKeywords : List String :=
  ["crypto", "bitcoin", "ethereum", "blockchain", "wallet",
   "coin", "token", "nft", "defi", "dapp"]

/-- `TRANSFER_KEYWORDS`. -/
def transferKeywords : List String :=
  ["transfer", "send", "wire", "deposit", "withdraw",
   "move funds", "transaction"]

/-- Python's `str.upper()` (character-wise upper-casing; identical to the
source's use on the ASCII inputs involved). -/
def pyUpper (s : String) : String := ⟨s.data.map Char.toUpper⟩

/-- Python's `str.lower()` (character-wise lower-casing; identical to the
source's use on the ASCII inputs involved). -/
def pyLower (s : String) : String := ⟨s.data.map Char.toLower⟩

/-- Python's substring test `kw in content`: `kw`'s character sequence is a
contiguous infix of `content`'s. -/
def containsKw (content kw : String) : Bool :=
  decide (kw.data <:+: content.data)

/-- Python's `round(x, 2)`.  Every value the engine rounds satisfies
`x * 100 ∈ ℤ`, where rounding is the identity (so the half-even tie rule of
Python's `round` never fires); the definition below agrees with Python on all
such values. -/
def round2 (q : ℚ) : ℚ := (⌊q * 100 + 1/2⌋ : ℚ) / 100

/-- The dictionary returned by `FraudDetectionEngine.analyze_text`. -/
structure ScoringResult where
  fraud_detected : Bool
  fraud_score : ℚ
  fraud_indicators : List String
  high_risk_keywords : List String
  medium_risk_keywords : List String
  social_engineering_indicators : List String
  crypto_present : Bool
  transfer_present : Bool
  recommendation : String
  confidence : ℚ
deriving Repr, DecidableEq

/-- `FraudDetectionEngine.analyze_text` (mcp_gateway.py lines 78–144). -/
def analyze_text (content : String) : ScoringResult :=
  let content_lower := pyLower content
  let high_risk_found := highRiskKeywords.filter (fun kw => containsKw content_lower kw)
  let medium_risk_found := mediumRiskKeywords.filter (fun kw => containsKw content_lower kw)
  let social_eng_found := socialEngineeringKeywords.filter (fun kw => containsKw content_lower kw)
  let crypto_present := cryptoKeywords.any (fun kw => containsKw content_lower kw)
  let transfer_present := transferKeywords.any (fun kw => containsKw content_lower kw)
  -- fraud_score accumulation, in source order
  let s1 : ℚ := 0 + high_risk_found.length * (0.3 : ℚ)
  let s2 : ℚ := s1 + medium_risk_found.length * (0.2 : ℚ)
  let s3 : ℚ := s2 + social_eng_found.length * (0.25 : ℚ)
  let s4 : ℚ := if crypto_present && transfer_present then s3 + (0.4 : ℚ) else s3
  let fraud_score : ℚ := min s4 1
  let fraud_indicators :=
    high_risk_found ++ medium_risk_found ++ social_eng_found ++
      (if crypto_present && transfer_present then ["crypto_transfer_combo"] else [])
  let recommendation : String :=
    if fraud_score ≥ (0.7 : ℚ) then "BLOCK"
    else if fraud_score ≥ (0.4 : ℚ) then "REVIEW"
    else "SAFE"
  let fraud_detected : Bool :=
    if fraud_score ≥ (0.7 : ℚ) then true
    else if fraud_score ≥ (0.4 : ℚ) then true
    else false
  { fraud_detected := fraud_detected
    fraud_score := round2 fraud_score
    fraud_indicators := fraud_indicators
    high_risk_keywords := high_risk_found
    medium_risk_keywords := medium_risk_found
    social_engineering_indicators := social_eng_found
    crypto_present := crypto_present
    transfer_present := transfer_present
    recommendation := recommendation
    confidence := round2 (min (fraud_score * (1.2 : ℚ)) 1) }

/-! ## Pipeline data model (armor_workflow.py) -/

/-- `ExecutionMode` enum. -/
inductive ExecutionMode where
  | ASK
  | COMMAND
deriving Repr, DecidableEq

/-- `AgentDecision` enum. -/
inductive AgentDecision where
  | SAFE
  | FRAUD
  | CHECK_REQUIRED
  | BLOCKED
deriving Repr, DecidableEq

/-- `AgentDecision.value` (the enum's string value). -/
def AgentDecision.value : AgentDecision → String
  | .SAFE => "SAFE"
  | .FRAUD => "FRAUD"
  | .CHECK_REQUIRED => "CHECK-REQUIRED"
  | .BLOCKED => "BLOCKED"

/-- `MediaType` enum. -/
inductive MediaType where
  | TEXT
  | IMAGE
  | AUDIO
  | VIDEO
  | DOCUMENT
deriving Repr, DecidableEq

/-- Python `MediaType[name]` (lookup by member name; raises `KeyError`,
modelled as `none`, for any other string). -/
def mediaTypeOfName (s : String) : Option MediaType :=
  if s = "TEXT" then some .TEXT
  else if s = "IMAGE" then some .IMAGE
  else if s = "AUDIO" then some MediaType.AUDIO
  else if s = "VIDEO" then some .VIDEO
  else if s = "DOCUMENT" then some .DOCUMENT
  else none

/-- Python `ExecutionMode[name]`. -/
def executionModeOfName (s : String) : Option ExecutionMode :=
  if s = "ASK" then some .ASK
  else if s = "COMMAND" then some .COMMAND
  else none

/-- The `"data"` sub-dictionary an agent reads out of an invocation result
(`result.get("data", {}).get(field, default)`).  Each field is optional, as
in a Python dict.  Note that `MCPGatewayAdapter.invoke` in fact never emits a
`"data"` key (its result keys are `success`/`result`/`status`/`error`), so
when the pipeline runs against the real adapter every field here reads as
absent; the model keeps the fields because the agents' accessors are written
against arbitrary dictionaries. -/
structure McpData where
  confidence : Option ℚ := none
  anomalies : Option (List String) := none
  risk_score : Option ℚ := none
  severity : Option String := none
  aml_status : Option String := none
  violations : Option (List String) := none
  required_actions : Option (List String) := none
  recommendations : Option (List String) := none
deriving Repr, DecidableEq

/-- The dictionary `client1.invoke` (rebound to `MCPGatewayAdapter.invoke`)
returns to `BaseAgent._invoke_action`: never raised, `success` false on
connection/timeout/HTTP errors.  Only the keys the agents read are kept. -/
structure InvokeResult where
  success : Bool := true
  data : Option McpData := none
deriving Repr, DecidableEq

/-- One agent-produced report dictionary.  Fields are `Option`-valued
because each concrete report carries only a subset of keys: a fraud report
carries `decision`/`escalate_to_risk` (the latter only outside the exception
path), a risk report `risk_score`/`escalate_to_compliance`, a compliance
report `compliance_approved`, a memory report `consolidation_status`; the
exception paths add `error`. -/
structure Report where
  agent : String := ""
  decision : Option String := none
  escalate_to_risk : Option Bool := none
  risk_score : Option ℚ := none
  escalate_to_compliance : Option Bool := none
  compliance_approved : Option Bool := none
  consolidation_status : Option String := none
  error : Option String := none
deriving Repr, DecidableEq

/-- One `audit_trail` entry (`ExecutionContext.log_action`); the wall-clock
timestamp and free-form details of the source entry are not modelled. -/
structure AuditEntry where
  agent : String
  action : String
  status : String
deriving Repr, DecidableEq

/-- One `errors` entry (`ExecutionContext.log_error`). -/
structure ErrorEntry where
  agent : String
  error_type : String
deriving Repr, DecidableEq

/-- `ExecutionContext` (armor_workflow.py lines 43–96). -/
structure ExecutionContext where
  user_input : String
  media_type : MediaType
  mode : ExecutionMode
  session_id : String
  audit_trail : List AuditEntry := []
  agent_reports : List (String × Report) := []
  blocked_actions : List AuditEntry := []
  errors : List ErrorEntry := []
deriving Repr, DecidableEq

/-- `ExecutionContext.log_action` (append-only). -/
def ExecutionContext.logAction (ctx : ExecutionContext)
    (agent action status : String) : ExecutionContext :=
  { ctx with audit_trail := ctx.audit_trail ++ [⟨agent, action, status⟩] }

/-- `ExecutionContext.log_error` (append-only). -/
def ExecutionContext.logError (ctx : ExecutionContext)
    (agent error_type : String) : ExecutionContext :=
  { ctx with errors := ctx.errors ++ [⟨agent, error_type⟩] }

/-- `ExecutionContext.add_agent_report` (dict assignment; each agent name is
written at most once per session, so an append keyed by name is faithful). -/
def ExecutionContext.addReport (ctx : ExecutionContext)
    (agent : String) (report : Report) : ExecutionContext :=
  { ctx with agent_reports := ctx.agent_reports ++ [(agent, report)] }

/-- External behaviour a single `process_input` run can observe: one
`InvokeResult` per gateway invocation the pipeline can make, one
capability-client exception flag per stage (`client1.capture_plan` /
`client1.get_intent_token` raising inside the stage body, which sends the
stage to its `except` branch), and the parsed yes/no answers of the two
interactive confirmation prompts. -/
structure PipelineEnv where
  fraudRaises : Bool := false
  fraudDetection : InvokeResult := {}
  fraudAnomaly : InvokeResult := {}
  fraudConfirm : Bool := true
  riskRaises : Bool := false
  riskScoreResult : InvokeResult := {}
  riskImpact : InvokeResult := {}
  riskConfirm : Bool := true
  complianceRaises : Bool := false
  complianceAml : InvokeResult := {}
  complianceRegulation : InvokeResult := {}
  memoryRaises : Bool := false
  memoryConsolidation : InvokeResult := {}
  memoryAudit : InvokeResult := {}
deriving Repr, DecidableEq

/-! ## Agents (armor_workflow.py) -/

/-- `FraudAgent._determine_fraud_classification` (lines 321–332). -/
def determineFraudClassification (detection_result anomaly_result : InvokeResult) :
    AgentDecision :=
  let deepfake_confidence : ℚ := ((detection_result.data.getD {}).confidence.getD 0)
  let anomaly_count : ℕ := ((anomaly_result.data.getD {}).anomalies.getD []).length
  if deepfake_confidence > (0.8 : ℚ) ∨ anomaly_count > 5 then .FRAUD
  else if deepfake_confidence > (0.5 : ℚ) ∨ anomaly_count > 2 then .CHECK_REQUIRED
  else .SAFE

/-- `FraudAgent.analyze` (lines 207–319).  The exception flag covers a raise
from the capability client at the head of the stage (plan capture / token
issuance), taking the `except` branch: log `ANALYSIS_FAILED`, return the
synthetic report `{agent, decision: CHECK-REQUIRED, error}` without storing
it in the context. -/
def fraudAnalyze (env : PipelineEnv) (ctx : ExecutionContext) :
    Report × ExecutionContext :=
  if env.fraudRaises then
    ({ agent := "FraudAgent", decision := some (AgentDecision.CHECK_REQUIRED).value,
       error := some "exception" },
     ctx.logError "FraudAgent" "ANALYSIS_FAILED")
  else
    let ctx := ctx.logAction "FraudAgent" "DEEPFAKE_DETECTION" "EXECUTED"
    let ctx := ctx.logAction "FraudAgent" "ANOMALY_ANALYSIS" "EXECUTED"
    let fraud_decision := determineFraudClassification env.fraudDetection env.fraudAnomaly
    let ctx :=
      if ctx.mode = ExecutionMode.ASK ∧ fraud_decision = AgentDecision.FRAUD ∧
          env.fraudConfirm = false then
        ctx.logAction "FraudAgent" "USER_OVERRIDE" "ESCALATION_BLOCKED"
      else ctx
    let fraud_report : Report :=
      { agent := "FraudAgent"
        decision := some fraud_decision.value
        escalate_to_risk := some (decide (fraud_decision ≠ AgentDecision.SAFE)) }
    (fraud_report, ctx.addReport "FraudAgent" fraud_report)

/-- `RiskAgent.assess_risk` (lines 343–452). -/
def riskAssess (env : PipelineEnv) (ctx : ExecutionContext) :
    Report × ExecutionContext :=
  if env.riskRaises then
    ({ agent := "RiskAgent", risk_score := some 50, error := some "exception" },
     ctx.logError "RiskAgent" "ASSESSMENT_FAILED")
  else
    let ctx := ctx.logAction "RiskAgent" "RISK_SCORING" "EXECUTED"
    let ctx := ctx.logAction "RiskAgent" "IMPACT_ASSESSMENT" "EXECUTED"
    let risk_score : ℚ := ((env.riskScoreResult.data.getD {}).risk_score.getD 0)
    let ctx :=
      if ctx.mode = ExecutionMode.ASK ∧ risk_score > 70 ∧ env.riskConfirm = false then
        ctx.logAction "RiskAgent" "USER_OVERRIDE" "ESCALATION_BLOCKED"
      else ctx
    let risk_report : Report :=
      { agent := "RiskAgent"
        risk_score := some risk_score
        escalate_to_compliance := some (decide (risk_score > 70)) }
    (risk_report, ctx.addReport "RiskAgent" risk_report)

/-- `ComplianceAgent.validate_compliance` (lines 463–564). -/
def complianceValidate (env : PipelineEnv) (ctx : ExecutionContext) :
    Report × ExecutionContext :=
  if env.complianceRaises then
    ({ agent := "ComplianceAgent", compliance_approved := some false,
       error := some "exception" },
     ctx.logError "ComplianceAgent" "VALIDATION_FAILED")
  else
    let ctx := ctx.logAction "ComplianceAgent" "AML_KYC_CHECK" "EXECUTED"
    let ctx := ctx.logAction "ComplianceAgent" "REGULATION_VALIDATION" "EXECUTED"
    let violations := ((env.complianceRegulation.data.getD {}).violations.getD [])
    let compliance_report : Report :=
      { agent := "ComplianceAgent"
        compliance_approved := some (decide (violations.length = 0)) }
    (compliance_report, ctx.addReport "ComplianceAgent" compliance_report)

/-- `MemoryUpdateAgent.finalize_and_log` (lines 575–679). -/
def memoryFinalize (env : PipelineEnv) (ctx : ExecutionContext) :
    Report × ExecutionContext :=
  if env.memoryRaises then
    ({ agent := "MemoryUpdateAgent", consolidation_status := some "FAILED",
       error := some "exception" },
     ctx.logError "MemoryUpdateAgent" "FINALIZATION_FAILED")
  else
    let ctx := ctx.logAction "MemoryUpdateAgent" "CONSOLIDATION" "EXECUTED"
    let ctx := ctx.logAction "MemoryUpdateAgent" "AUDIT_TRAIL_GENERATION" "EXECUTED"
    let memory_report : Report :=
      { agent := "MemoryUpdateAgent"
        consolidation_status := some "SUCCESS" }
    (memory_report, ctx.addReport "MemoryUpdateAgent" memory_report)

/-! ## Orchestrator (armor_workflow.py, `FinGuardOrchestrator`) -/

/-- The final-report dictionary `process_input` builds.  The
`agent_reports` sub-dictionary's four possible keys (`fraud_agent`,
`risk_agent`, `compliance_agent`, `memory_agent`) are modelled as the four
`Option Report` fields; the source's wall-clock `timestamp` is not
modelled. -/
structure FinalReport where
  session_id : String
  mode : ExecutionMode
  media_type : MediaType
  fraud_agent : Option Report := none
  risk_agent : Option Report := none
  compliance_agent : Option Report := none
  memory_agent : Option Report := none
  audit_trail : List AuditEntry := []
  blocked_actions : List AuditEntry := []
  errors : List ErrorEntry := []
  final_decision : String := "PENDING"
deriving Repr, DecidableEq

/-- `final_report["agent_reports"].get("fraud_agent", {}).get("decision", "SAFE")`. -/
def fraudDecisionOf (r : FinalReport) : String :=
  ((r.fraud_agent.getD {}).decision.getD "SAFE")

/-- `final_report["agent_reports"].get("risk_agent", {}).get("risk_score", 0)`. -/
def riskScoreOf (r : FinalReport) : ℚ :=
  ((r.risk_agent.getD {}).risk_score.getD 0)

/-- `...get("compliance_agent", {}).get("compliance_approved", True)`. -/
def complianceApprovedOf (r : FinalReport) : Bool :=
  ((r.compliance_agent.getD {}).compliance_approved.getD true)

/-- `FinGuardOrchestrator._determine_final_decision` (lines 759–774). -/
def determineFinalDecision (r : FinalReport) : String :=
  let fraud_decision := fraudDecisionOf r
  let risk_score := riskScoreOf r
  let compliance_approved := complianceApprovedOf r
  if fraud_decision = AgentDecision.FRAUD.value then
    if risk_score > 80 then "BLOCK_IMMEDIATELY"
    else if compliance_approved = false then "ESCALATE_TO_AUTHORITIES"
    else "FRAUD_DETECTED_MONITOR"
  else if fraud_decision = AgentDecision.CHECK_REQUIRED.value then
    "REQUIRE_MANUAL_REVIEW"
  else "SAFE_APPROVED"

/-- The Stage-1 → Stage-2 escalation gate of `process_input` (line 723):
`fraud_report.get("decision") != AgentDecision.SAFE.value and
fraud_report.get("escalate_to_risk", False)`. -/
def riskGate (fraud_report : Report) : Bool :=
  decide (fraud_report.decision ≠ some AgentDecision.SAFE.value) &&
    fraud_report.escalate_to_risk.getD false

/-- The Stage-2 → Stage-3 escalation gate of `process_input` (line 730):
`risk_report.get("escalate_to_compliance", False)`. -/
def complianceGate (risk_report : Report) : Bool :=
  risk_report.escalate_to_compliance.getD false

/-- Outcome of one `process_input` call.  The source returns the bare error
dictionary `{"error": ...}` on an invalid media type / mode and the
final-report dictionary otherwise; `completed` additionally exposes the
session's final `ExecutionContext` (internal in the source) so that
context-level properties can be stated. -/
inductive ProcessOutcome where
  | invalid (msg : String)
  | completed (report : FinalReport) (ctx : ExecutionContext)
deriving Repr, DecidableEq

/-- The final report of an outcome, if the session ran. -/
def ProcessOutcome.reportOf : ProcessOutcome → Option FinalReport
  | .invalid _ => none
  | .completed r _ => some r

/-- The final execution context of an outcome, if the session ran. -/
def ProcessOutcome.ctxOf : ProcessOutcome → Option ExecutionContext
  | .invalid _ => none
  | .completed _ c => some c

/-- The staged body of `FinGuardOrchestrator.process_input` (lines 718–748):
Stage 1 always, Stage 2 behind `riskGate`, Stage 3 behind `complianceGate`,
Stage 4 unconditionally, then `_determine_final_decision` over the
accumulated report map.  The orchestrator-level `except` branch (line 750)
is unreachable in this model: every stage call is total because each agent
catches all of its own exceptions, and the adapter returns failures instead
of raising. -/
def runSession (env : PipelineEnv) (ctx0 : ExecutionContext) :
    FinalReport × ExecutionContext :=
  let fraudStep := fraudAnalyze env ctx0
  let fraud_report := fraudStep.1
  let riskStep : Option Report × Option Report × ExecutionContext :=
    if riskGate fraud_report then
      let rr := riskAssess env fraudStep.2
      if complianceGate rr.1 then
        let cr := complianceValidate env rr.2
        (some rr.1, some cr.1, cr.2)
      else (some rr.1, none, rr.2)
    else (none, none, fraudStep.2)
  let memStep := memoryFinalize env riskStep.2.2
  let pre : FinalReport :=
    { session_id := ctx0.session_id
      mode := ctx0.mode
      media_type := ctx0.media_type
      fraud_agent := some fraud_report
      risk_agent := riskStep.1
      compliance_agent := riskStep.2.1
      memory_agent := some memStep.1
      audit_trail := memStep.2.audit_trail
      blocked_actions := memStep.2.blocked_actions
      errors := memStep.2.errors
      final_decision := "PENDING" }
  ({ pre with final_decision := determineFinalDecision pre }, memStep.2)

/-- The fresh `ExecutionContext` that `process_input` constructs (line 701):
empty audit trail, report map, blocked actions and errors; a session id
(`_generate_session_id`, time-derived and unique in the source) is modelled
as `"SESSION_" ++ sessions` where `sessions` counts the ids generated so
far. -/
def initialContext (user_input : String) (media : MediaType)
    (exec_mode : ExecutionMode) (sessions : ℕ) : ExecutionContext :=
  { user_input := user_input, media_type := media, mode := exec_mode,
    session_id := "SESSION_" ++ toString sessions }

/-- Validation and dispatch of `process_input`: parse the media-type and mode
names; on failure return the error dictionary with no session created; on
success create the session context and run the stages. -/
def processInput (env : PipelineEnv)
    (user_input media_type mode : String) (sessions : ℕ) :
    ProcessOutcome × ℕ :=
  match mediaTypeOfName (pyUpper media_type), executionModeOfName (pyUpper mode) with
  | some media, some exec_mode =>
    let out := runSession env (initialContext user_input media exec_mode sessions)
    (ProcessOutcome.completed out.1 out.2, sessions + 1)
  | _, _ => (ProcessOutcome.invalid "Invalid media type or mode", sessions)

/-! ## Helper lemmas -/

/-- `round(x, 2)` is the identity on rationals of the form `k/100`. -/
lemma round2_natDiv (k : ℕ) : round2 ((k : ℚ) / 100) = (k : ℚ) / 100 := by
  unfold round2
  have h1 : ((k : ℚ) / 100) * 100 = (k : ℚ) := by
    field_simp
  rw [h1]
  have h2 : ⌊(k : ℚ) + 1 / 2⌋ = (k : ℤ) := by
    have hk : (k : ℚ) = ((k : ℤ) : ℚ) := by push_cast; ring
    rw [hk, Int.floor_int_add]
    norm_num
  rw [h2]
  push_cast
  ring

/-- Every score the engine can form is `n/20` for a natural `n`; both capping
at `1` and the source's accumulation order reduce to this shape. -/
lemma score_arith (a m s : ℕ) (b : Bool) :
    round2 (min (if b then ((0 + (a : ℚ) * (0.3 : ℚ)) + (m : ℚ) * (0.2 : ℚ) + (s : ℚ) * (0.25 : ℚ)) + (0.4 : ℚ)
                 else ((0 + (a : ℚ) * (0.3 : ℚ)) + (m : ℚ) * (0.2 : ℚ) + (s : ℚ) * (0.25 : ℚ))) 1)
      = min ((0.3 : ℚ) * a + (0.2 : ℚ) * m + (0.25 : ℚ) * s + (if b then (0.4 : ℚ) else 0)) 1 := by
  have hraw : (if b then ((0 + (a : ℚ) * (0.3 : ℚ)) + (m : ℚ) * (0.2 : ℚ) + (s : ℚ) * (0.25 : ℚ)) + (0.4 : ℚ)
               else ((0 + (a : ℚ) * (0.3 : ℚ)) + (m : ℚ) * (0.2 : ℚ) + (s : ℚ) * (0.25 : ℚ)))
      = (0.3 : ℚ) * a + (0.2 : ℚ) * m + (0.25 : ℚ) * s + (if b then (0.4 : ℚ) else 0) := by
    cases b <;> simp <;> ring
  rw [hraw]
  have hk : (0.3 : ℚ) * a + (0.2 : ℚ) * m + (0.25 : ℚ) * s + (if b then (0.4 : ℚ) else 0)
      = ((30 * a + 20 * m + 25 * s + (if b then 40 else 0) : ℕ) : ℚ) / 100 := by
    cases b <;> simp <;> ring
  rw [hk]
  rcases le_total (((30 * a + 20 * m + 25 * s + (if b then 40 else 0) : ℕ) : ℚ) / 100) 1 with h | h
  · rw [min_eq_left h, round2_natDiv]
  · rw [min_eq_right h]
    have : (1 : ℚ) = ((100 : ℕ) : ℚ) / 100 := by norm_num
    rw [this, round2_natDiv]

/-- The capped score is `n/20` with `n = min (6a+4m+5s+{8,0}) 20`. -/
lemma capped_score_shape (a m s : ℕ) (b : Bool) :
    min ((0.3 : ℚ) * a + (0.2 : ℚ) * m + (0.25 : ℚ) * s + (if b then (0.4 : ℚ) else 0)) 1
      = ((min (6 * a + 4 * m + 5 * s + (if b then 8 else 0)) 20 : ℕ) : ℚ) / 20 := by
  have hraw : (0.3 : ℚ) * a + (0.2 : ℚ) * m + (0.25 : ℚ) * s + (if b then (0.4 : ℚ) else 0)
      = ((6 * a + 4 * m + 5 * s + (if b then 8 else 0) : ℕ) : ℚ) / 20 := by
    cases b <;> simp <;> ring
  rw [hraw]
  rcases Nat.le_total (6 * a + 4 * m + 5 * s + (if b then 8 else 0)) 20 with h | h
  · rw [Nat.min_eq_left h, min_eq_left]
    have : ((6 * a + 4 * m + 5 * s + (if b then 8 else 0) : ℕ) : ℚ) ≤ 20 := by
      exact_mod_cast h
    linarith
  · rw [Nat.min_eq_right h, min_eq_right]
    · norm_num
    · have : (20 : ℚ) ≤ ((6 * a + 4 * m + 5 * s + (if b then 8 else 0) : ℕ) : ℚ) := by
        exact_mod_cast h
      linarith

/-- `round(·, 2)` is also the identity on the confidence value
`min ((n/20) * 1.2) 1`. -/
lemma confidence_round2 (n : ℕ) :
    round2 (min (((n : ℚ) / 20) * (1.2 : ℚ)) 1) = min (((n : ℚ) / 20) * (1.2 : ℚ)) 1 := by
  have hk : ((n : ℚ) / 20) * (1.2 : ℚ) = ((6 * n : ℕ) : ℚ) / 100 := by
    push_cast; ring
  rw [hk]
  rcases le_total (((6 * n : ℕ) : ℚ) / 100) 1 with h | h
  · rw [min_eq_left h, round2_natDiv]
  · rw [min_eq_right h]
    have : (1 : ℚ) = ((100 : ℕ) : ℚ) / 100 := by norm_num
    rw [this, round2_natDiv]

/-! ## C1 — Scoring Engine formula -/

/-- The fraud score exactly as the claim words it: 0.3 per high-risk keyword
that is a substring of the lower-cased content, plus 0.2 per medium-risk
match, plus 0.25 per social-engineering match, plus a flat 0.4 bonus when at
least one crypto keyword and at least one transfer keyword are both present,
with the total capped at 1.0. -/
def specScore (content : String) : ℚ :=
  min ((0.3 : ℚ) * (highRiskKeywords.countP (fun kw => containsKw (pyLower content) kw)) +
       (0.2 : ℚ) * (mediumRiskKeywords.countP (fun kw => containsKw (pyLower content) kw)) +
       (0.25 : ℚ) * (socialEngineeringKeywords.countP (fun kw => containsKw (pyLower content) kw)) +
       (if (cryptoKeywords.any (fun kw => containsKw (pyLower content) kw)) &&
           (transferKeywords.any (fun kw => containsKw (pyLower content) kw))
        then (0.4 : ℚ) else 0))
    1

/-- `round(·, 2)` is the identity on rationals of the form `n/20`. -/
lemma round2_nat20 (n : ℕ) : round2 ((n : ℚ) / 20) = (n : ℚ) / 20 := by
  have h : (n : ℚ) / 20 = ((5 * n : ℕ) : ℚ) / 100 := by push_cast; ring
  rw [h, round2_natDiv]

/-- The engine's three outputs against the spec's closed-form score: shared
between the formula claim and the monotonicity claim. -/
lemma analyze_text_spec (content : String) :
    (analyze_text content).fraud_score = specScore content ∧
    (analyze_text content).recommendation =
      (if specScore content ≥ (0.7 : ℚ) then "BLOCK"
       else if specScore content ≥ (0.4 : ℚ) then "REVIEW" else "SAFE") ∧
    (analyze_text content).confidence = min (specScore content * (1.2 : ℚ)) 1 := by
  unfold analyze_text specScore
  simp only [List.countP_eq_length_filter]
  generalize (List.filter (fun kw => containsKw (pyLower content) kw) highRiskKeywords).length = a
  generalize (List.filter (fun kw => containsKw (pyLower content) kw) mediumRiskKeywords).length = m
  generalize (List.filter (fun kw => containsKw (pyLower content) kw) socialEngineeringKeywords).length = s
  generalize ((cryptoKeywords.any fun kw => containsKw (pyLower content) kw) &&
      transferKeywords.any fun kw => containsKw (pyLower content) kw) = b
  have hs4 : (if b = true then 0 + (a : ℚ) * (0.3 : ℚ) + (m : ℚ) * (0.2 : ℚ) + (s : ℚ) * (0.25 : ℚ) + (0.4 : ℚ)
              else 0 + (a : ℚ) * (0.3 : ℚ) + (m : ℚ) * (0.2 : ℚ) + (s : ℚ) * (0.25 : ℚ))
      = (0.3 : ℚ) * a + (0.2 : ℚ) * m + (0.25 : ℚ) * s + (if b = true then (0.4 : ℚ) else 0) := by
    cases b <;> simp <;> ring
  rw [hs4]
  rw [capped_score_shape a m s b]
  refine ⟨round2_nat20 _, rfl, confidence_round2 _⟩

/-- C1: for every content string, `analyze_text` computes the fraud score as
0.3 per matched high-risk keyword + 0.2 per medium-risk + 0.25 per
social-engineering + a flat 0.4 crypto-and-transfer bonus, capped at 1.0
(`specScore`); the recommendation is BLOCK at score ≥ 0.7, REVIEW at
0.4 ≤ score < 0.7, else SAFE; and confidence = min(score × 1.2, 1.0). -/
theorem scoring_engine_formula (content : String) :
    (analyze_text content).fraud_score = specScore content ∧
    (analyze_text content).recommendation =
      (if specScore content ≥ (0.7 : ℚ) then "BLOCK"
       else if specScore content ≥ (0.4 : ℚ) then "REVIEW" else "SAFE") ∧
    (analyze_text content).confidence = min (specScore content * (1.2 : ℚ)) 1 :=
  analyze_text_spec content

/-! ## C2 — final decision table -/

/-- C2: `_determine_final_decision` implements the spec's decision table,
with a missing risk report defaulting `risk_score` to 0 and a missing
compliance report defaulting `compliance_approved` to true. -/
theorem final_decision_table (r : FinalReport) :
    (fraudDecisionOf r = "FRAUD" → riskScoreOf r > 80 →
      determineFinalDecision r = "BLOCK_IMMEDIATELY") ∧
    (fraudDecisionOf r = "FRAUD" → riskScoreOf r ≤ 80 → complianceApprovedOf r = false →
      determineFinalDecision r = "ESCALATE_TO_AUTHORITIES") ∧
    (fraudDecisionOf r = "FRAUD" → riskScoreOf r ≤ 80 → complianceApprovedOf r = true →
      determineFinalDecision r = "FRAUD_DETECTED_MONITOR") ∧
    (fraudDecisionOf r = "CHECK-REQUIRED" →
      determineFinalDecision r = "REQUIRE_MANUAL_REVIEW") ∧
    (fraudDecisionOf r ≠ "FRAUD" → fraudDecisionOf r ≠ "CHECK-REQUIRED" →
      determineFinalDecision r = "SAFE_APPROVED") ∧
    (r.risk_agent = none → riskScoreOf r = 0) ∧
    (r.compliance_agent = none → complianceApprovedOf r = true) := by
  refine ⟨?_, ?_, ?_, ?_, ?_, ?_, ?_⟩
  · intro h1 h2
    simp [determineFinalDecision, AgentDecision.value, h1, h2]
  · intro h1 h2 h3
    simp [determineFinalDecision, AgentDecision.value, h1, h3, not_lt.mpr h2]
  · intro h1 h2 h3
    simp [determineFinalDecision, AgentDecision.value, h1, h3, not_lt.mpr h2]
  · intro h1
    have h2 : fraudDecisionOf r ≠ "FRAUD" := by rw [h1]; decide
    simp [determineFinalDecision, AgentDecision.value, h1, h2]
  · intro h1 h2
    simp [determineFinalDecision, AgentDecision.value, h1, h2]
  · intro h1
    simp [riskScoreOf, h1, Report.risk_score]
  · intro h1
    simp [complianceApprovedOf, h1, Report.compliance_approved]

/-- Spec scenario D: a final report with fraud decision FRAUD and risk score
85 (and no compliance report). -/
def reportScenarioD : FinalReport :=
  { session_id := "S", mode := .COMMAND, media_type := .TEXT,
    fraud_agent := some { agent := "FraudAgent", decision := some "FRAUD" },
    risk_agent := some { agent := "RiskAgent", risk_score := some 85 } }

/-- Witness for C2 at scenario D: fraud FRAUD with risk score 85 yields
BLOCK_IMMEDIATELY. -/
theorem final_decision_table_witness :
    fraudDecisionOf reportScenarioD = "FRAUD" ∧ riskScoreOf reportScenarioD > 80 ∧
    determineFinalDecision reportScenarioD = "BLOCK_IMMEDIATELY" :=
  ⟨by decide, by decide,
   (final_decision_table reportScenarioD).1 (by decide) (by decide)⟩

/-! ## C3 — fraud classification thresholds -/

/-- C3: given the two invocation results, the classification is FRAUD iff
deepfake confidence > 0.8 or anomaly count > 5, else CHECK-REQUIRED iff
confidence > 0.5 or count > 2, else SAFE (absent fields read as 0 / empty);
and — when the stage does not end in its exception handler — the report's
`escalate_to_risk` flag is true exactly when the decision is not SAFE. -/
theorem fraud_classification_spec (env : PipelineEnv) (ctx : ExecutionContext)
    (h : env.fraudRaises = false) :
    (determineFraudClassification env.fraudDetection env.fraudAnomaly = .FRAUD ↔
      ((env.fraudDetection.data.getD {}).confidence.getD 0 > (0.8 : ℚ) ∨
        ((env.fraudAnomaly.data.getD {}).anomalies.getD []).length > 5)) ∧
    (determineFraudClassification env.fraudDetection env.fraudAnomaly = .CHECK_REQUIRED ↔
      (¬((env.fraudDetection.data.getD {}).confidence.getD 0 > (0.8 : ℚ) ∨
          ((env.fraudAnomaly.data.getD {}).anomalies.getD []).length > 5) ∧
        ((env.fraudDetection.data.getD {}).confidence.getD 0 > (0.5 : ℚ) ∨
          ((env.fraudAnomaly.data.getD {}).anomalies.getD []).length > 2))) ∧
    (determineFraudClassification env.fraudDetection env.fraudAnomaly = .SAFE ↔
      (¬((env.fraudDetection.data.getD {}).confidence.getD 0 > (0.8 : ℚ) ∨
          ((env.fraudAnomaly.data.getD {}).anomalies.getD []).length > 5) ∧
        ¬((env.fraudDetection.data.getD {}).confidence.getD 0 > (0.5 : ℚ) ∨
          ((env.fraudAnomaly.data.getD {}).anomalies.getD []).length > 2))) ∧
    ((fraudAnalyze env ctx).1.escalate_to_risk = some true ↔
      determineFraudClassification env.fraudDetection env.fraudAnomaly ≠ .SAFE) := by
  refine ⟨?_, ?_, ?_, ?_⟩
  · simp only [determineFraudClassification]
    split_ifs with h1 h2 <;> simp_all
  · simp only [determineFraudClassification]
    split_ifs with h1 h2 <;> simp_all
  · simp only [determineFraudClassification]
    split_ifs with h1 h2 <;> simp_all
  · simp [fraudAnalyze, h]

/-- An environment in which the deepfake-detection invocation reports
confidence 0.9. -/
def envFraudHigh : PipelineEnv :=
  { fraudDetection := { data := some { confidence := some (9/10) } } }

/-- A concrete session context (COMMAND mode, text input). -/
def ctxExample : ExecutionContext :=
  { user_input := "x", media_type := .TEXT, mode := .COMMAND, session_id := "S" }

/-- Witness for C3: with deepfake confidence 0.9 (> 0.8) the classification
is FRAUD and the report escalates to risk. -/
theorem fraud_classification_spec_witness :
    envFraudHigh.fraudRaises = false ∧
    determineFraudClassification envFraudHigh.fraudDetection envFraudHigh.fraudAnomaly
      = .FRAUD ∧
    (fraudAnalyze envFraudHigh ctxExample).1.escalate_to_risk = some true := by
  refine ⟨rfl, ?_, ?_⟩
  · exact (fraud_classification_spec envFraudHigh ctxExample rfl).1.mpr
      (by norm_num [envFraudHigh])
  · exact (fraud_classification_spec envFraudHigh ctxExample rfl).2.2.2.mpr
      (by norm_num [determineFraudClassification, envFraudHigh]; decide)

/-! ## Shared pipeline lemmas -/

/-- The report `FraudAgent.analyze` returns, by exception flag. -/
lemma fraudAnalyze_fst (env : PipelineEnv) (ctx : ExecutionContext) :
    (fraudAnalyze env ctx).1 =
      (if env.fraudRaises = true then
        { agent := "FraudAgent", decision := some AgentDecision.CHECK_REQUIRED.value,
          error := some "exception" }
      else
        { agent := "FraudAgent",
          decision := some (determineFraudClassification env.fraudDetection env.fraudAnomaly).value,
          escalate_to_risk :=
            some (decide (determineFraudClassification env.fraudDetection env.fraudAnomaly ≠ .SAFE)) }) := by
  by_cases hf : env.fraudRaises = true <;> simp [fraudAnalyze, hf]

/-- The report `RiskAgent.assess_risk` returns, by exception flag. -/
lemma riskAssess_fst (env : PipelineEnv) (ctx : ExecutionContext) :
    (riskAssess env ctx).1 =
      (if env.riskRaises = true then
        { agent := "RiskAgent", risk_score := some 50, error := some "exception" }
      else
        { agent := "RiskAgent",
          risk_score := some ((env.riskScoreResult.data.getD {}).risk_score.getD 0),
          escalate_to_compliance :=
            some (decide ((env.riskScoreResult.data.getD {}).risk_score.getD 0 > 70)) }) := by
  by_cases hr : env.riskRaises = true <;> simp [riskAssess, hr]

/-- The report `ComplianceAgent.validate_compliance` returns. -/
lemma complianceValidate_fst (env : PipelineEnv) (ctx : ExecutionContext) :
    (complianceValidate env ctx).1 =
      (if env.complianceRaises = true then
        { agent := "ComplianceAgent", compliance_approved := some false,
          error := some "exception" }
      else
        { agent := "ComplianceAgent",
          compliance_approved :=
            some (decide (((env.complianceRegulation.data.getD {}).violations.getD []).length = 0)) }) := by
  by_cases hc : env.complianceRaises = true <;> simp [complianceValidate, hc]

/-- The report `MemoryUpdateAgent.finalize_and_log` returns. -/
lemma memoryFinalize_fst (env : PipelineEnv) (ctx : ExecutionContext) :
    (memoryFinalize env ctx).1 =
      (if env.memoryRaises = true then
        { agent := "MemoryUpdateAgent", consolidation_status := some "FAILED",
          error := some "exception" }
      else
        { agent := "MemoryUpdateAgent", consolidation_status := some "SUCCESS" }) := by
  by_cases hm : env.memoryRaises = true <;> simp [memoryFinalize, hm]

/-- The `AgentDecision` enum's string values are pairwise distinct. -/
lemma value_inj (d e : AgentDecision) : d.value = e.value ↔ d = e := by
  cases d <;> cases e <;> decide

/-- The Stage-2 gate on a normal (non-exception) fraud report coincides with
the classification being non-SAFE. -/
lemma riskGate_normal (d : AgentDecision) :
    riskGate { agent := "FraudAgent", decision := some d.value,
               escalate_to_risk := some (decide (d ≠ AgentDecision.SAFE)) }
      = decide (d ≠ AgentDecision.SAFE) := by
  cases d <;> decide

/-- The Stage-2 gate is false on the exception-path synthetic fraud report,
whose `escalate_to_risk` key is absent. -/
lemma riskGate_synthetic :
    riskGate { agent := "FraudAgent", decision := some AgentDecision.CHECK_REQUIRED.value,
               error := some "exception" } = false := by
  decide

/-- The fraud entry of the session's final report map. -/
lemma runSession_fraud_agent (env : PipelineEnv) (ctx0 : ExecutionContext) :
    (runSession env ctx0).1.fraud_agent = some (fraudAnalyze env ctx0).1 := by
  by_cases hg : riskGate (fraudAnalyze env ctx0).1 <;>
    by_cases hc : complianceGate (riskAssess env (fraudAnalyze env ctx0).2).1 <;>
    simp [runSession, hg, hc]

/-- The risk entry of the session's final report map: present iff the Stage-2
gate passed. -/
lemma runSession_risk_agent (env : PipelineEnv) (ctx0 : ExecutionContext) :
    (runSession env ctx0).1.risk_agent =
      (if riskGate (fraudAnalyze env ctx0).1 then
        some (riskAssess env (fraudAnalyze env ctx0).2).1
      else none) := by
  by_cases hg : riskGate (fraudAnalyze env ctx0).1 <;>
    by_cases hc : complianceGate (riskAssess env (fraudAnalyze env ctx0).2).1 <;>
    simp [runSession, hg, hc]

/-- The compliance entry of the session's final report map: present iff both
gates passed. -/
lemma runSession_compliance_agent (env : PipelineEnv) (ctx0 : ExecutionContext) :
    (runSession env ctx0).1.compliance_agent =
      (if riskGate (fraudAnalyze env ctx0).1 = true ∧
          complianceGate (riskAssess env (fraudAnalyze env ctx0).2).1 = true then
        some (complianceValidate env (riskAssess env (fraudAnalyze env ctx0).2).2).1
      else none) := by
  by_cases hg : riskGate (fraudAnalyze env ctx0).1 <;>
    by_cases hc : complianceGate (riskAssess env (fraudAnalyze env ctx0).2).1 <;>
    simp [runSession, hg, hc]

/-- The memory entry of the session's final report map: always present. -/
lemma runSession_memory_agent (env : PipelineEnv) (ctx0 : ExecutionContext) :
    (runSession env ctx0).1.memory_agent =
      some (if env.memoryRaises = true then
        { agent := "MemoryUpdateAgent", consolidation_status := some "FAILED",
          error := some "exception" }
      else
        { agent := "MemoryUpdateAgent", consolidation_status := some "SUCCESS" }) := by
  by_cases hg : riskGate (fraudAnalyze env ctx0).1 <;>
    by_cases hc : complianceGate (riskAssess env (fraudAnalyze env ctx0).2).1 <;>
    simp [runSession, hg, hc, memoryFinalize_fst]

/-- `_determine_final_decision` only reads the three agent entries. -/
lemma determineFinalDecision_congr (r r2 : FinalReport)
    (h1 : r.fraud_agent = r2.fraud_agent) (h2 : r.risk_agent = r2.risk_agent)
    (h3 : r.compliance_agent = r2.compliance_agent) :
    determineFinalDecision r = determineFinalDecision r2 := by
  simp [determineFinalDecision, fraudDecisionOf, riskScoreOf, complianceApprovedOf, h1, h2, h3]

/-- The session's recorded final decision is `_determine_final_decision` of
its own report. -/
lemma runSession_final_decision (env : PipelineEnv) (ctx0 : ExecutionContext) :
    (runSession env ctx0).1.final_decision = determineFinalDecision (runSession env ctx0).1 := by
  by_cases hg : riskGate (fraudAnalyze env ctx0).1 <;>
    by_cases hc : complianceGate (riskAssess env (fraudAnalyze env ctx0).2).1 <;>
    · simp only [runSession, hg, hc]
      apply determineFinalDecision_congr <;> simp [hg, hc]

/-- `_determine_final_decision` can only produce the five dispositions. -/
lemma determineFinalDecision_cases (r : FinalReport) :
    determineFinalDecision r = "SAFE_APPROVED" ∨
    determineFinalDecision r = "REQUIRE_MANUAL_REVIEW" ∨
    determineFinalDecision r = "FRAUD_DETECTED_MONITOR" ∨
    determineFinalDecision r = "ESCALATE_TO_AUTHORITIES" ∨
    determineFinalDecision r = "BLOCK_IMMEDIATELY" := by
  simp only [determineFinalDecision]
  split_ifs <;> simp

/-- On a valid media type and mode, `process_input` creates one session and
runs the stages on the fresh context. -/
lemma processInput_valid (env : PipelineEnv) (ui mt md : String) (n : ℕ)
    (media : MediaType) (em : ExecutionMode)
    (h1 : mediaTypeOfName (pyUpper mt) = some media)
    (h2 : executionModeOfName (pyUpper md) = some em) :
    processInput env ui mt md n =
      (.completed (runSession env (initialContext ui media em n)).1
        (runSession env (initialContext ui media em n)).2, n + 1) := by
  simp [processInput, h1, h2]

/-! ## C4 — escalation gating -/

/-- An environment in which the capability client raises inside the fraud
stage (plan capture / token issuance failure). -/
def envFraudException : PipelineEnv := { fraudRaises := true }

/-- Counterexample to C4 as stated: when the fraud stage ends in its
exception handler, the decision is CHECK-REQUIRED (not SAFE) and yet the
risk stage does not execute, because the synthetic report lacks the
`escalate_to_risk` key and the orchestrator's gate defaults it to false. -/
theorem escalation_gating_counterexample :
    ∃ r c, (processInput envFraudException "x" "text" "COMMAND" 0).1 = .completed r c ∧
      ∃ fr, r.fraud_agent = some fr ∧ fr.decision = some "CHECK-REQUIRED" ∧
        fr.decision ≠ some "SAFE" ∧ r.risk_agent = none := by
  have hp1 : mediaTypeOfName (pyUpper "text") = some MediaType.TEXT := by decide
  have hp2 : executionModeOfName (pyUpper "COMMAND") = some ExecutionMode.COMMAND := by decide
  have hf : envFraudException.fraudRaises = true := rfl
  refine ⟨_, _, by rw [processInput_valid envFraudException "x" "text" "COMMAND" 0 _ _ hp1 hp2], ?_⟩
  rw [runSession_fraud_agent, runSession_risk_agent, fraudAnalyze_fst]
  simp [hf, riskGate_synthetic, AgentDecision.value]
  decide

/-- C4 (amended): for every completed session, the Risk stage executes iff
the fraud stage completed without an exception AND its classification is not
SAFE — when the fraud stage ended in its exception handler the Risk stage is
skipped even though the synthetic decision is CHECK-REQUIRED; and the
Compliance stage executes iff the Risk stage ran and its report's risk_score
is > 70 (including the exception-handler risk report, whose score 50 never
passes the gate). -/
theorem escalation_gating_amended (env : PipelineEnv) (ui mt md : String) (n : ℕ)
    (media : MediaType) (em : ExecutionMode)
    (h1 : mediaTypeOfName (pyUpper mt) = some media)
    (h2 : executionModeOfName (pyUpper md) = some em) :
    ∃ r c, (processInput env ui mt md n).1 = .completed r c ∧
      (r.risk_agent.isSome = true ↔
        env.fraudRaises = false ∧
          determineFraudClassification env.fraudDetection env.fraudAnomaly ≠ .SAFE) ∧
      (r.compliance_agent.isSome = true ↔
        ∃ rr, r.risk_agent = some rr ∧ rr.risk_score.getD 0 > 70) := by
  refine ⟨_, _, by rw [processInput_valid env ui mt md n media em h1 h2], ?_, ?_⟩
  · rw [runSession_risk_agent]
    by_cases hf : env.fraudRaises = true
    · rw [fraudAnalyze_fst]
      simp [hf, riskGate_synthetic]
    · simp only [Bool.not_eq_true] at hf
      rw [fraudAnalyze_fst]
      simp only [hf, if_false, Bool.false_eq_true]
      by_cases hd : determineFraudClassification env.fraudDetection env.fraudAnomaly = .SAFE
      · simp [riskGate_normal, hd]
        decide
      · simp [riskGate_normal, hd, hf]
        simp [riskGate, value_inj, hd]
  · rw [runSession_compliance_agent, runSession_risk_agent]
    by_cases hg : riskGate (fraudAnalyze env (initialContext ui media em n)).1 = true
    · simp only [hg, if_true, true_and]
      by_cases hr : env.riskRaises = true
      · rw [riskAssess_fst]
        simp [hr, complianceGate]
        norm_num
      · simp only [Bool.not_eq_true] at hr
        rw [riskAssess_fst]
        simp only [hr, if_false, Bool.false_eq_true]
        by_cases hs : (env.riskScoreResult.data.getD {}).risk_score.getD 0 > 70
        · simp [complianceGate, hs]
        · simp [complianceGate, hs]
    · simp only [Bool.not_eq_true] at hg
      simp [hg]

/-- Witness for C4 (amended) at a deepfake-confidence-0.9 environment. -/
theorem escalation_gating_amended_witness :
    mediaTypeOfName (pyUpper "text") = some MediaType.TEXT ∧
    executionModeOfName (pyUpper "COMMAND") = some ExecutionMode.COMMAND ∧
    (∃ r c, (processInput envFraudHigh "x" "text" "COMMAND" 0).1 = .completed r c ∧
      (r.risk_agent.isSome = true ↔
        envFraudHigh.fraudRaises = false ∧
          determineFraudClassification envFraudHigh.fraudDetection envFraudHigh.fraudAnomaly
            ≠ .SAFE) ∧
      (r.compliance_agent.isSome = true ↔
        ∃ rr, r.risk_agent = some rr ∧ rr.risk_score.getD 0 > 70)) :=
  ⟨by decide, by decide,
   escalation_gating_amended envFraudHigh "x" "text" "COMMAND" 0 MediaType.TEXT ExecutionMode.COMMAND (by decide) (by decide)⟩

/-! ## C5 — failure containment and degradation -/

/-- An environment in which every gateway invocation returns the adapter's
failure dictionary `{success: false, result: {}, status: "error", error}`
(connection refused / timeout / handler error), and the capability client
raises nowhere. -/
def envGatewayDown : PipelineEnv :=
  { fraudDetection := { success := false }, fraudAnomaly := { success := false },
    riskScoreResult := { success := false }, riskImpact := { success := false },
    complianceAml := { success := false }, complianceRegulation := { success := false },
    memoryConsolidation := { success := false }, memoryAudit := { success := false } }

/-- Counterexample to C5 as stated: with every gateway invocation failing
(`success:false`), the fraud stage does not degrade to CHECK-REQUIRED — the
absent `data` key reads as confidence 0 / no anomalies, the classification is
SAFE, and the session concludes SAFE_APPROVED. -/
theorem degradation_counterexample :
    envGatewayDown.fraudDetection.success = false ∧
    envGatewayDown.fraudAnomaly.success = false ∧
    envGatewayDown.riskScoreResult.success = false ∧
    envGatewayDown.riskImpact.success = false ∧
    envGatewayDown.complianceAml.success = false ∧
    envGatewayDown.complianceRegulation.success = false ∧
    envGatewayDown.memoryConsolidation.success = false ∧
    envGatewayDown.memoryAudit.success = false ∧
    ∃ r c, (processInput envGatewayDown "send crypto offshore now" "text" "COMMAND" 0).1
        = .completed r c ∧
      (∃ fr, r.fraud_agent = some fr ∧ fr.decision = some "SAFE") ∧
      r.final_decision = "SAFE_APPROVED" := by
  have hp1 : mediaTypeOfName (pyUpper "text") = some MediaType.TEXT := by decide
  have hp2 : executionModeOfName (pyUpper "COMMAND") = some ExecutionMode.COMMAND := by decide
  have hf : envGatewayDown.fraudRaises = false := rfl
  have hcls : determineFraudClassification envGatewayDown.fraudDetection envGatewayDown.fraudAnomaly
      = .SAFE := by
    norm_num [determineFraudClassification, envGatewayDown]
  refine ⟨rfl, rfl, rfl, rfl, rfl, rfl, rfl, rfl, _, _,
    by rw [processInput_valid envGatewayDown "send crypto offshore now" "text" "COMMAND" 0 _ _ hp1 hp2],
    ?_, ?_⟩
  · rw [runSession_fraud_agent, fraudAnalyze_fst]
    simp [hf, hcls, AgentDecision.value]
  · rw [runSession_final_decision]
    have hfa := runSession_fraud_agent envGatewayDown
      (initialContext "send crypto offshore now" .TEXT .COMMAND 0)
    rw [fraudAnalyze_fst] at hfa
    simp only [hf, Bool.false_eq_true, if_false, hcls] at hfa
    have hgate : riskGate (fraudAnalyze envGatewayDown
        (initialContext "send crypto offshore now" .TEXT .COMMAND 0)).1 = false := by
      rw [fraudAnalyze_fst]
      simp [hf, hcls]
      decide
    have hra := runSession_risk_agent envGatewayDown
      (initialContext "send crypto offshore now" .TEXT .COMMAND 0)
    rw [hgate] at hra
    simp only [Bool.false_eq_true, if_false] at hra
    have hca := runSession_compliance_agent envGatewayDown
      (initialContext "send crypto offshore now" .TEXT .COMMAND 0)
    rw [hgate] at hca
    simp only [Bool.false_eq_true, false_and, if_false] at hca
    simp [determineFinalDecision, fraudDecisionOf, riskScoreOf, complianceApprovedOf,
      hfa, hra, hca, AgentDecision.value]

/-- C5 (amended): every valid call returns a completed, well-formed final
report whose decision is one of the five dispositions — no stage failure
raises past the orchestrator — and a capability-client exception in the
fraud stage degrades conservatively to REQUIRE_MANUAL_REVIEW; gateway
invocations that merely return `success:false` do not trigger this
degradation (see the counterexample). -/
theorem degraded_failure_containment (env : PipelineEnv) (ui mt md : String) (n : ℕ)
    (media : MediaType) (em : ExecutionMode)
    (h1 : mediaTypeOfName (pyUpper mt) = some media)
    (h2 : executionModeOfName (pyUpper md) = some em) :
    ∃ r c, (processInput env ui mt md n).1 = .completed r c ∧
      (r.final_decision = "SAFE_APPROVED" ∨ r.final_decision = "REQUIRE_MANUAL_REVIEW" ∨
       r.final_decision = "FRAUD_DETECTED_MONITOR" ∨ r.final_decision = "ESCALATE_TO_AUTHORITIES" ∨
       r.final_decision = "BLOCK_IMMEDIATELY") ∧
      (env.fraudRaises = true → r.final_decision = "REQUIRE_MANUAL_REVIEW") := by
  refine ⟨_, _, by rw [processInput_valid env ui mt md n media em h1 h2], ?_, ?_⟩
  · rw [runSession_final_decision]
    exact determineFinalDecision_cases _
  · intro hf
    rw [runSession_final_decision]
    have hfa := runSession_fraud_agent env (initialContext ui media em n)
    rw [fraudAnalyze_fst] at hfa
    simp only [hf, if_true] at hfa
    have hra := runSession_risk_agent env (initialContext ui media em n)
    rw [fraudAnalyze_fst] at hra
    simp only [hf, if_true, riskGate_synthetic, if_false] at hra
    have hca := runSession_compliance_agent env (initialContext ui media em n)
    rw [fraudAnalyze_fst] at hca
    simp only [hf, if_true, riskGate_synthetic, Bool.false_eq_true, false_and, if_false] at hca
    simp [determineFinalDecision, fraudDecisionOf, riskScoreOf, complianceApprovedOf,
      hfa, hra, hca, AgentDecision.value]

/-- Witness for C5 (amended) at the fraud-stage-exception environment. -/
theorem degraded_failure_containment_witness :
    mediaTypeOfName (pyUpper "text") = some MediaType.TEXT ∧
    executionModeOfName (pyUpper "COMMAND") = some ExecutionMode.COMMAND ∧
    (∃ r c, (processInput envFraudException "y" "text" "COMMAND" 2).1 = .completed r c ∧
      (r.final_decision = "SAFE_APPROVED" ∨ r.final_decision = "REQUIRE_MANUAL_REVIEW" ∨
       r.final_decision = "FRAUD_DETECTED_MONITOR" ∨ r.final_decision = "ESCALATE_TO_AUTHORITIES" ∨
       r.final_decision = "BLOCK_IMMEDIATELY") ∧
      (envFraudException.fraudRaises = true → r.final_decision = "REQUIRE_MANUAL_REVIEW")) :=
  ⟨by decide, by decide,
   degraded_failure_containment envFraudException "y" "text" "COMMAND" 2 MediaType.TEXT ExecutionMode.COMMAND (by decide) (by decide)⟩

/-! ## C6 — MemoryAgent report always present -/

/-- C6: on every valid call the completed final report's `agent_reports` map
contains a MemoryAgent entry, whether or not the optional Risk and
Compliance stages ran, and even when the memory stage fails internally —
in which case the entry records the FAILED consolidation status. -/
theorem memory_report_always_present (env : PipelineEnv) (ui mt md : String) (n : ℕ)
    (media : MediaType) (em : ExecutionMode)
    (h1 : mediaTypeOfName (pyUpper mt) = some media)
    (h2 : executionModeOfName (pyUpper md) = some em) :
    ∃ r c, (processInput env ui mt md n).1 = .completed r c ∧
      ∃ mr, r.memory_agent = some mr ∧
        mr.consolidation_status = some (if env.memoryRaises = true then "FAILED" else "SUCCESS") := by
  refine ⟨_, _, by rw [processInput_valid env ui mt md n media em h1 h2], ?_⟩
  rw [runSession_memory_agent]
  by_cases hm : env.memoryRaises = true <;> simp [hm]

/-- An environment in which the capability client raises inside the memory
stage. -/
def envMemoryException : PipelineEnv := { memoryRaises := true }

/-- Witness for C6 at an environment whose memory stage fails internally. -/
theorem memory_report_always_present_witness :
    mediaTypeOfName (pyUpper "text") = some MediaType.TEXT ∧
    executionModeOfName (pyUpper "COMMAND") = some ExecutionMode.COMMAND ∧
    (∃ r c, (processInput envMemoryException "x" "text" "COMMAND" 0).1 = .completed r c ∧
      ∃ mr, r.memory_agent = some mr ∧
        mr.consolidation_status =
          some (if envMemoryException.memoryRaises = true then "FAILED" else "SUCCESS")) :=
  ⟨by decide, by decide,
   memory_report_always_present envMemoryException "x" "text" "COMMAND" 0
     MediaType.TEXT ExecutionMode.COMMAND (by decide) (by decide)⟩

/-! ## C7 — invalid input creates no session -/

/-- C7: when the media-type or mode string names no enum member,
`process_input` returns the bare error dictionary before any stage runs: no
session id is generated (the session counter is unchanged), no
`ExecutionContext` exists in the outcome, and no audit-trail entry was
written. -/
theorem invalid_input_no_session (env : PipelineEnv) (ui mt md : String) (n : ℕ)
    (h : mediaTypeOfName (pyUpper mt) = none ∨ executionModeOfName (pyUpper md) = none) :
    processInput env ui mt md n = (.invalid "Invalid media type or mode", n) := by
  rcases h with h | h
  · simp [processInput, h]
  · rcases he : mediaTypeOfName (pyUpper mt) with _ | m <;> simp [processInput, h, he]

/-- Witness for C7: an unknown media kind string is rejected with the
counter unchanged. -/
theorem invalid_input_no_session_witness :
    (mediaTypeOfName (pyUpper "hologram") = none ∨
      executionModeOfName (pyUpper "COMMAND") = none) ∧
    processInput {} "x" "hologram" "COMMAND" 3 = (.invalid "Invalid media type or mode", 3) :=
  ⟨Or.inl (by decide),
   invalid_input_no_session {} "x" "hologram" "COMMAND" 3 (Or.inl (by decide))⟩

/-! ## C8 — score monotonicity -/

/-- C8: the Scoring Engine's score is monotone in keyword matches: if every
high-risk, medium-risk and social-engineering keyword matched by `c` is also
matched by `c2`, and the crypto+transfer combo holding for `c` implies it
holds for `c2`, then `c2`'s fraud score is at least `c`'s. -/
theorem score_monotone (c c2 : String)
    (hh : ∀ kw ∈ highRiskKeywords,
      containsKw (pyLower c) kw = true → containsKw (pyLower c2) kw = true)
    (hm : ∀ kw ∈ mediumRiskKeywords,
      containsKw (pyLower c) kw = true → containsKw (pyLower c2) kw = true)
    (hs : ∀ kw ∈ socialEngineeringKeywords,
      containsKw (pyLower c) kw = true → containsKw (pyLower c2) kw = true)
    (hc : ((cryptoKeywords.any fun kw => containsKw (pyLower c) kw) &&
           (transferKeywords.any fun kw => containsKw (pyLower c) kw)) = true →
          ((cryptoKeywords.any fun kw => containsKw (pyLower c2) kw) &&
           (transferKeywords.any fun kw => containsKw (pyLower c2) kw)) = true) :
    (analyze_text c).fraud_score ≤ (analyze_text c2).fraud_score := by
  rw [(analyze_text_spec c).1, (analyze_text_spec c2).1]
  unfold specScore
  apply min_le_min _ le_rfl
  have h1 : (highRiskKeywords.countP fun kw => containsKw (pyLower c) kw)
      ≤ (highRiskKeywords.countP fun kw => containsKw (pyLower c2) kw) :=
    List.countP_mono_left hh
  have h2 : (mediumRiskKeywords.countP fun kw => containsKw (pyLower c) kw)
      ≤ (mediumRiskKeywords.countP fun kw => containsKw (pyLower c2) kw) :=
    List.countP_mono_left hm
  have h3 : (socialEngineeringKeywords.countP fun kw => containsKw (pyLower c) kw)
      ≤ (socialEngineeringKeywords.countP fun kw => containsKw (pyLower c2) kw) :=
    List.countP_mono_left hs
  have h4 : (if ((cryptoKeywords.any fun kw => containsKw (pyLower c) kw) &&
        (transferKeywords.any fun kw => containsKw (pyLower c) kw)) = true then (0.4 : ℚ) else 0)
      ≤ (if ((cryptoKeywords.any fun kw => containsKw (pyLower c2) kw) &&
        (transferKeywords.any fun kw => containsKw (pyLower c2) kw)) = true then (0.4 : ℚ) else 0) := by
    by_cases hcc : ((cryptoKeywords.any fun kw => containsKw (pyLower c) kw) &&
        (transferKeywords.any fun kw => containsKw (pyLower c) kw)) = true
    · rw [if_pos hcc, if_pos (hc hcc)]
    · rw [if_neg hcc]
      split_ifs <;> norm_num
  have hq1 : ((highRiskKeywords.countP fun kw => containsKw (pyLower c) kw : ℕ) : ℚ)
      ≤ ((highRiskKeywords.countP fun kw => containsKw (pyLower c2) kw : ℕ) : ℚ) :=
    Nat.cast_le.mpr h1
  have hq2 : ((mediumRiskKeywords.countP fun kw => containsKw (pyLower c) kw : ℕ) : ℚ)
      ≤ ((mediumRiskKeywords.countP fun kw => containsKw (pyLower c2) kw : ℕ) : ℚ) :=
    Nat.cast_le.mpr h2
  have hq3 : ((socialEngineeringKeywords.countP fun kw => containsKw (pyLower c) kw : ℕ) : ℚ)
      ≤ ((socialEngineeringKeywords.countP fun kw => containsKw (pyLower c2) kw : ℕ) : ℚ) :=
    Nat.cast_le.mpr h3
  have c03 : (0 : ℚ) ≤ (0.3 : ℚ) := by norm_num
  have c02 : (0 : ℚ) ≤ (0.2 : ℚ) := by norm_num
  have c025 : (0 : ℚ) ≤ (0.25 : ℚ) := by norm_num
  exact add_le_add (add_le_add (add_le_add
    (mul_le_mul_of_nonneg_left hq1 c03)
    (mul_le_mul_of_nonneg_left hq2 c02))
    (mul_le_mul_of_nonneg_left hq3 c025)) h4

/-- Witness for C8: "send" matches a subset of what "crypto send" matches,
so its score is no larger. -/
theorem score_monotone_witness :
    (∀ kw ∈ highRiskKeywords,
      containsKw (pyLower "send") kw = true → containsKw (pyLower "crypto send") kw = true) ∧
    (∀ kw ∈ mediumRiskKeywords,
      containsKw (pyLower "send") kw = true → containsKw (pyLower "crypto send") kw = true) ∧
    (∀ kw ∈ socialEngineeringKeywords,
      containsKw (pyLower "send") kw = true → containsKw (pyLower "crypto send") kw = true) ∧
    (((cryptoKeywords.any fun kw => containsKw (pyLower "send") kw) &&
      (transferKeywords.any fun kw => containsKw (pyLower "send") kw)) = true →
     ((cryptoKeywords.any fun kw => containsKw (pyLower "crypto send") kw) &&
      (transferKeywords.any fun kw => containsKw (pyLower "crypto send") kw)) = true) ∧
    (analyze_text "send").fraud_score ≤ (analyze_text "crypto send").fraud_score :=
  ⟨by decide, by decide, by decide, by decide,
   score_monotone "send" "crypto send" (by decide) (by decide) (by decide) (by decide)⟩

/-! ## C9 — declined escalation confirmation is audit-only -/

/-- An ASK-mode fraud-stage environment: deepfake confidence 0.9 (a FRAUD
classification) and a declined escalation prompt. -/
def envFraudDecline : PipelineEnv :=
  { fraudDetection := { data := some { confidence := some (9/10) } },
    fraudConfirm := false }

/-- A concrete interactive-mode session context. -/
def ctxAsk : ExecutionContext :=
  { user_input := "x", media_type := .TEXT, mode := .ASK, session_id := "S" }

/-- C9: in ASK mode, when the classification is FRAUD and the user declines
the escalation confirmation, the only difference from the confirming run is
one extra USER_OVERRIDE / ESCALATION_BLOCKED audit entry: the returned
report is identical (decision FRAUD, `escalate_to_risk` true), the stored
report map and error list are identical, the orchestrator's Stage-2 gate
still passes, and in a full ASK-mode session the Risk stage still
executes. -/
theorem user_override_frame (env : PipelineEnv) (ctx : ExecutionContext)
    (hmode : ctx.mode = ExecutionMode.ASK)
    (hraise : env.fraudRaises = false)
    (hdec : determineFraudClassification env.fraudDetection env.fraudAnomaly = .FRAUD)
    (hconf : env.fraudConfirm = false) :
    (fraudAnalyze env ctx).1 = (fraudAnalyze { env with fraudConfirm := true } ctx).1 ∧
    (fraudAnalyze env ctx).1.decision = some "FRAUD" ∧
    (fraudAnalyze env ctx).1.escalate_to_risk = some true ∧
    (fraudAnalyze env ctx).2.audit_trail =
      (fraudAnalyze { env with fraudConfirm := true } ctx).2.audit_trail ++
        [{ agent := "FraudAgent", action := "USER_OVERRIDE", status := "ESCALATION_BLOCKED" }] ∧
    (fraudAnalyze env ctx).2.agent_reports =
      (fraudAnalyze { env with fraudConfirm := true } ctx).2.agent_reports ∧
    (fraudAnalyze env ctx).2.errors = (fraudAnalyze { env with fraudConfirm := true } ctx).2.errors ∧
    riskGate (fraudAnalyze env ctx).1 = true ∧
    (∀ (ui mt md : String) (n : ℕ) (media : MediaType),
      mediaTypeOfName (pyUpper mt) = some media →
      executionModeOfName (pyUpper md) = some ExecutionMode.ASK →
      ∃ r c, (processInput env ui mt md n).1 = .completed r c ∧ r.risk_agent.isSome = true) := by
  refine ⟨?_, ?_, ?_, ?_, ?_, ?_, ?_, ?_⟩
  · simp [fraudAnalyze, hraise, hdec, hmode, hconf, AgentDecision.value]
  · simp [fraudAnalyze, hraise, hdec, AgentDecision.value]
  · simp [fraudAnalyze, hraise, hdec]
  · simp [fraudAnalyze, hraise, hdec, hmode, hconf, ExecutionContext.logAction,
      ExecutionContext.addReport]
  · simp [fraudAnalyze, hraise, hdec, hmode, hconf, ExecutionContext.logAction,
      ExecutionContext.addReport]
  · simp [fraudAnalyze, hraise, hdec, hmode, hconf, ExecutionContext.logAction,
      ExecutionContext.addReport]
  · rw [fraudAnalyze_fst]
    simp [hraise, hdec, riskGate, AgentDecision.value]
  · intro ui mt md n media hp1 hp2
    refine ⟨_, _, by rw [processInput_valid env ui mt md n media .ASK hp1 hp2], ?_⟩
    rw [runSession_risk_agent, fraudAnalyze_fst]
    simp [hraise, hdec, riskGate, AgentDecision.value]

/-- Witness for C9 at the concrete declining ASK-mode run. -/
theorem user_override_frame_witness :
    ctxAsk.mode = ExecutionMode.ASK ∧
    envFraudDecline.fraudRaises = false ∧
    determineFraudClassification envFraudDecline.fraudDetection envFraudDecline.fraudAnomaly
      = .FRAUD ∧
    envFraudDecline.fraudConfirm = false ∧
    (fraudAnalyze envFraudDecline ctxAsk).1.decision = some "FRAUD" ∧
    (fraudAnalyze envFraudDecline ctxAsk).1.escalate_to_risk = some true ∧
    (fraudAnalyze envFraudDecline ctxAsk).2.audit_trail =
      (fraudAnalyze { envFraudDecline with fraudConfirm := true } ctxAsk).2.audit_trail ++
        [{ agent := "FraudAgent", action := "USER_OVERRIDE", status := "ESCALATION_BLOCKED" }] ∧
    riskGate (fraudAnalyze envFraudDecline ctxAsk).1 = true := by
  have hdec : determineFraudClassification envFraudDecline.fraudDetection
      envFraudDecline.fraudAnomaly = .FRAUD := by
    norm_num [determineFraudClassification, envFraudDecline]
  have h := user_override_frame envFraudDecline ctxAsk rfl rfl hdec rfl
  exact ⟨rfl, rfl, hdec, rfl, h.2.1, h.2.2.1, h.2.2.2.1, h.2.2.2.2.2.2.1⟩

/-! ## C10 — synthetic fraud report bypasses the context's report map -/

/-- C10: when the fraud stage ends in its exception handler, the synthetic
CHECK-REQUIRED report is returned to the orchestrator and lands in the final
report's map under `fraud_agent`, but `add_agent_report` is never reached,
so the `ExecutionContext`'s own `agent_reports` map — the map the memory
stage consolidates — has no FraudAgent entry for the session. -/
theorem fraud_exception_not_in_context (env : PipelineEnv) (ui mt md : String) (n : ℕ)
    (media : MediaType) (em : ExecutionMode)
    (h1 : mediaTypeOfName (pyUpper mt) = some media)
    (h2 : executionModeOfName (pyUpper md) = some em)
    (hf : env.fraudRaises = true) :
    ∃ r c, (processInput env ui mt md n).1 = .completed r c ∧
      c.agent_reports.lookup "FraudAgent" = none ∧
      ∃ fr, r.fraud_agent = some fr ∧ fr.decision = some "CHECK-REQUIRED" ∧
        fr.escalate_to_risk = none ∧ fr.error.isSome = true := by
  refine ⟨_, _, by rw [processInput_valid env ui mt md n media em h1 h2], ?_, ?_⟩
  · by_cases hm : env.memoryRaises = true <;>
      simp [runSession, fraudAnalyze, hf, riskGate_synthetic, memoryFinalize, hm,
        ExecutionContext.logError, ExecutionContext.addReport, ExecutionContext.logAction,
        initialContext, List.lookup]
  · rw [runSession_fraud_agent, fraudAnalyze_fst]
    simp [hf, AgentDecision.value]

/-- Witness for C10 at the fraud-stage-exception environment. -/
theorem fraud_exception_not_in_context_witness :
    mediaTypeOfName (pyUpper "text") = some MediaType.TEXT ∧
    executionModeOfName (pyUpper "COMMAND") = some ExecutionMode.COMMAND ∧
    envFraudException.fraudRaises = true ∧
    (∃ r c, (processInput envFraudException "z" "text" "COMMAND" 1).1 = .completed r c ∧
      c.agent_reports.lookup "FraudAgent" = none ∧
      ∃ fr, r.fraud_agent = some fr ∧ fr.decision = some "CHECK-REQUIRED" ∧
        fr.escalate_to_risk = none ∧ fr.error.isSome = true) :=
  ⟨by decide, by decide, rfl,
   fraud_exception_not_in_context envFraudException "z" "text" "COMMAND" 1
     MediaType.TEXT ExecutionMode.COMMAND (by decide) (by decide) rfl⟩

end FinGuard
